import Mathlib

/-
Verification of the CIBIL scoring engine (src/main.py) against its
natural-language specification.

The engine is shallowly embedded below.  Python floats are modelled as exact
rationals (ℚ); Python `datetime` values are modelled by the `Date` structure
together with `toOrdinal`, which mirrors `datetime.date.toordinal` (proleptic
Gregorian calendar), so that `(d2 - d1).days` becomes a difference of
ordinals.  `datetime.strptime` with the five fixed format strings is modelled
by an explicit character-level parser: a `%Y` field is exactly four digits, a
`%d` field is one or two digits with value 1..31, a `%m` field is one or two
digits with value 1..12 (these are the regular expressions CPython compiles
for those directives), and the assembled date must be a valid calendar date
(the check `datetime` itself performs).  Python exceptions raised by
`calculate_cibil_score` are modelled by the `Except CalcError` result type.
Display-only artifacts of the report (the f-string remark of the payment
history block, the `peak_message`, the rounding of scores to one decimal for
presentation, and the set-iteration-ordered `types` list) are not modelled;
every numeric and list field the specification's claims talk about is.
-/

namespace Cibil

/-- Calendar date, as produced by Python `datetime.strptime` (time-of-day is
always midnight for the formats used, so only the date part is modelled). -/
structure Date where
  year : ℕ
  month : ℕ
  day : ℕ
deriving DecidableEq, Repr

/-- Gregorian leap-year rule, as implemented by Python `datetime`. -/
def isLeapYear (y : ℕ) : Bool :=
  (y % 4 == 0 && y % 100 != 0) || y % 400 == 0

/-- Number of days in a month of a given year (Python `calendar` rule). -/
def daysInMonth (y m : ℕ) : ℕ :=
  if m == 2 then (if isLeapYear y then 29 else 28)
  else if m == 4 || m == 6 || m == 9 || m == 11 then 30
  else 31

/-- Days in the months of year `y` strictly before month `m`. -/
def daysBeforeMonth (y m : ℕ) : ℕ :=
  (List.range (m - 1)).foldl (fun acc i => acc + daysInMonth y (i + 1)) 0

/-- Proleptic-Gregorian day number of a date; mirrors
`datetime.date.toordinal` (day 1 is 0001-01-01). -/
def toOrdinal (d : Date) : ℕ :=
  365 * (d.year - 1) + ((d.year - 1) / 4 - (d.year - 1) / 100 + (d.year - 1) / 400)
    + daysBeforeMonth d.year d.month + d.day

/-- Day number as an integer, so that date differences are subtractions. -/
def daysOf (d : Date) : ℤ :=
  (toOrdinal d : ℤ)

/-- Split a character list at every occurrence of `sep` (like
`str.split(sep)` for a one-character separator). -/
def splitOnChar (sep : Char) : List Char → List (List Char)
  | [] => [[]]
  | c :: cs =>
    match splitOnChar sep cs with
    | [] => if c = sep then [[], []] else [[c]]
    | g :: gs => if c = sep then [] :: g :: gs else (c :: g) :: gs

/-- Numeric value of a digit string (caller guarantees all digits). -/
def charsToNat (l : List Char) : ℕ :=
  l.foldl (fun a c => 10 * a + (c.toNat - 48)) 0

/-- One numeric field of a `strptime` format: between `minLen` and `maxLen`
digit characters whose value lies in `lo..hi`. -/
def parseField (minLen maxLen lo hi : ℕ) (l : List Char) : Option ℕ :=
  if minLen ≤ l.length ∧ l.length ≤ maxLen ∧ l.all Char.isDigit then
    let n := charsToNat l
    if lo ≤ n ∧ n ≤ hi then some n else none
  else none

/-- Final calendar validation performed by the `datetime` constructor. -/
def mkDate (y m d : ℕ) : Option Date :=
  if 1 ≤ d ∧ d ≤ daysInMonth y m then some ⟨y, m, d⟩ else none

/-- Parse a year-month-day format (`%Y<sep>%m<sep>%d`). -/
def parseYmd (sep : Char) (l : List Char) : Option Date :=
  match splitOnChar sep l with
  | [ys, ms, ds] => do
    let y ← parseField 4 4 1 9999 ys
    let m ← parseField 1 2 1 12 ms
    let d ← parseField 1 2 1 31 ds
    mkDate y m d
  | _ => none

/-- Parse a day-month-year format (`%d<sep>%m<sep>%Y`). -/
def parseDmy (sep : Char) (l : List Char) : Option Date :=
  match splitOnChar sep l with
  | [ds, ms, ys] => do
    let d ← parseField 1 2 1 31 ds
    let m ← parseField 1 2 1 12 ms
    let y ← parseField 4 4 1 9999 ys
    mkDate y m d
  | _ => none

/-- Strip leading and trailing whitespace, like `str.strip()`. -/
def trimChars (l : List Char) : List Char :=
  ((l.dropWhile Char.isWhitespace).reverse.dropWhile Char.isWhitespace).reverse

/-- Source `parse_transaction_date`: try the five formats
`%Y-%m-%d`, `%d-%m-%Y`, `%d/%m/%Y`, `%Y/%m/%d`, `%d.%m.%Y` in order on the
trimmed text; the first that matches wins, otherwise the result is `none`. -/
def parse_transaction_date (date_str : String) : Option Date :=
  let s := trimChars date_str.toList
  (parseYmd '-' s) <|> (parseDmy '-' s) <|> (parseDmy '/' s) <|>
    (parseYmd '/' s) <|> (parseDmy '.' s)

/-- Does the haystack contain the needle as a contiguous substring
(Python `x in desc_upper`)? -/
def containsSub (needle : List Char) : List Char → Bool
  | [] => needle.isEmpty
  | c :: cs => needle.isPrefixOf (c :: cs) || containsSub needle cs

/-- Python `any(x in desc_upper for x in [...])`. -/
def containsAny (hay : List Char) (needles : List String) : Bool :=
  needles.any fun n => containsSub n.toList hay

/-- Source `categorize_transaction`: ordered keyword matching over the
upper-cased description, first hit wins. -/
def categorize_transaction (description : String) : String :=
  let desc_upper := description.toList.map Char.toUpper
  if containsAny desc_upper ["CREDIT CARD", "CC PAYMENT", "CC EMI", "CARD PAYMENT"] then
    "credit_card"
  else if containsAny desc_upper ["HOME LOAN", "HOUSING LOAN", "MORTGAGE", "HL EMI"] then
    "home_loan"
  else if containsAny desc_upper ["CAR LOAN", "AUTO LOAN", "VEHICLE LOAN", "CAR EMI"] then
    "car_loan"
  else if containsAny desc_upper ["GOLD LOAN", "LOAN AGAINST PROPERTY"] then
    "secured_loan"
  else if containsAny desc_upper ["PERSONAL LOAN", "PL EMI", "CONSUMER LOAN"] then
    "personal_loan"
  else if containsAny desc_upper ["EDUCATION LOAN", "STUDENT LOAN"] then
    "education_loan"
  else if containsAny desc_upper ["LIFE INSURANCE", "LIC PREMIUM"] then
    "life_insurance"
  else if containsAny desc_upper ["HEALTH INSURANCE", "MEDICAL INSURANCE"] then
    "health_insurance"
  else "other"

/-- Input transaction record.  Python dicts may lack keys, hence `Option`;
`txn.get('date', '')` and `txn.get('description', '')` default to the empty
string, while `txn['amount']` raises `KeyError` when the key is absent. -/
structure Txn where
  date : Option String
  description : Option String
  amount : Option ℚ
deriving DecidableEq, Repr

/-- Transaction with its `parsed_date` and `category` tags attached. -/
structure Normalized where
  txn : Txn
  parsed_date : Date
  category : String
deriving DecidableEq, Repr

/-- Ways `calculate_cibil_score` terminates without a report:
the two explicit `ValueError` raises, the `KeyError` from reading a missing
`amount` of a credit-card transaction, and the `ZeroDivisionError` from
`estimated_monthly_bill / estimated_credit_limit`. -/
inductive CalcError
  | noTransactions
  | noValidDates
  | keyErrorAmount
  | zeroDivision
deriving DecidableEq, Repr

/-- Date-parsing loop of `calculate_cibil_score` (lines 81-89): keep exactly
the records whose date parses, tagging them with date and category. -/
def normalize (transactions : List Txn) : List Normalized :=
  transactions.filterMap fun t =>
    (parse_transaction_date (t.date.getD "")).map fun d =>
      { txn := t, parsed_date := d, category := categorize_transaction (t.description.getD "") }

/-- Category bucket: the comprehension
`[t for t in dated_transactions if t['category'] == cat]`. -/
def bucketOf (cat : String) (dated : List Normalized) : List Normalized :=
  dated.filter fun t => t.category == cat

/-- Python `min(dates)` over a non-empty list of dates (first minimum). -/
def minDate (d0 : Date) (rest : List Date) : Date :=
  rest.foldl (fun a b => if daysOf b < daysOf a then b else a) d0

/-- Python `max(dates)` over a non-empty list of dates (first maximum). -/
def maxDate (d0 : Date) (rest : List Date) : Date :=
  rest.foldl (fun a b => if daysOf a < daysOf b then b else a) d0

/-- Line 98: `date_range_months = max(1, (end_date - start_date).days / 30)`. -/
def dateRangeMonths (startD endD : ℤ) : ℚ :=
  max 1 (((endD - startD : ℤ) : ℚ) / 30)

/-- Consistency base of the payment-history block (lines 124-131). -/
def consistencyBase (payments_per_month : ℚ) : ℚ :=
  if payments_per_month ≥ 1.5 then 95.0
  else if payments_per_month ≥ 1.0 then 90.0
  else if payments_per_month ≥ 0.5 then 75.0
  else 60.0

/-- Count of consecutive gaps exceeding 45 days in an ascending day-number
list (lines 134-139; the code collects the gaps in a list and takes its
length, only the count is used). -/
def countGaps : List ℤ → ℕ
  | a :: b :: rest => (if b - a > 45 then 1 else 0) + countGaps (b :: rest)
  | _ => 0

/-- Insertion into a sorted list, ascending. -/
def insertSorted (x : ℤ) : List ℤ → List ℤ
  | [] => [x]
  | y :: ys => if x ≤ y then x :: y :: ys else y :: insertSorted x ys

/-- Python `sorted` on day numbers (insertion sort; only the ordered values
matter, which agree with any sort). -/
def sortDays (l : List ℤ) : List ℤ :=
  l.foldr insertSorted []

/-- Payment-history block, lines 115-141, as a function of the day numbers of
the combined credit-transaction pool and of `date_range_months`: the
consistency base of `payments_per_month = len(pool) / max(1, months)` minus
the gap penalty `min(20, 5 * gaps)`, floored at 50 (empty pool scores 50). -/
def payment_history_score (pool : List ℤ) (months_covered : ℚ) : ℚ :=
  if pool.length = 0 then 50.0
  else
    max 50 (consistencyBase ((pool.length : ℚ) / max 1 months_covered) -
      min 20 (5 * (countGaps (sortDays pool) : ℚ)))

/-- Piecewise utilization score (lines 158-168) as a function of `cur`. -/
def curScorePiece (cur : ℚ) : ℚ :=
  if cur ≤ 0.30 then 95.0
  else if cur ≤ 0.50 then 85.0 - ((cur - 0.30) / 0.20) * 20
  else if cur ≤ 0.70 then 65.0 - ((cur - 0.50) / 0.20) * 20
  else max 30 (45 - ((cur - 0.70) / 0.30) * 15)

/-- Status label attached next to the piecewise utilization score. -/
def curStatusPiece (cur : ℚ) : String :=
  if cur ≤ 0.30 then "Excellent"
  else if cur ≤ 0.50 then "Good"
  else if cur ≤ 0.70 then "Fair"
  else "High"

/-- Python `int(q)`: truncation toward zero. -/
def pyInt (q : ℚ) : ℤ :=
  if 0 ≤ q then ⌊q⌋ else ⌈q⌉

/-- Collect the `amount` field of each transaction; `none` models the
`KeyError` Python raises while summing when some record lacks the key. -/
def allAmounts : List Normalized → Option (List ℚ)
  | [] => some []
  | t :: ts =>
    match t.txn.amount, allAmounts ts with
    | some a, some rest => some (a :: rest)
    | _, _ => none

/-- Lines 149-153 combined: `estimated_monthly_bill = avg_payment * 30` where
`avg_payment = sum(abs(amount)) / len(cc_payments)`. -/
def estimatedMonthlyBill (amounts : List ℚ) (num_cc_payments : ℕ) : ℚ :=
  ((amounts.map fun a => |a|).sum / (num_cc_payments : ℚ)) * 30

/-- Credit-utilization block, lines 148-175.  Returns the score, the reported
`cur_percentage` and the status, or the exception the Python code raises:
`KeyError` when a credit-card record lacks `amount`, `ZeroDivisionError` when
`estimated_credit_limit = estimated_monthly_bill * 2.5` is zero (which
happens exactly when the summed absolute amounts are zero, since the guard
only checks list non-emptiness).  `cur = min(1.0, bill / limit)`. -/
def creditUtilization (cc_payments : List Normalized) : Except CalcError (ℚ × ℤ × String) :=
  match cc_payments with
  | [] => .ok (70.0, 0, "No Credit Card Usage")
  | _ :: _ =>
    match allAmounts cc_payments with
    | none => .error .keyErrorAmount
    | some amounts =>
      if estimatedMonthlyBill amounts cc_payments.length * 2.5 = 0 then .error .zeroDivision
      else
        .ok (curScorePiece (min 1.0 (estimatedMonthlyBill amounts cc_payments.length /
              (estimatedMonthlyBill amounts cc_payments.length * 2.5))),
          pyInt (min 1.0 (estimatedMonthlyBill amounts cc_payments.length /
              (estimatedMonthlyBill amounts cc_payments.length * 2.5)) * 100),
          curStatusPiece (min 1.0 (estimatedMonthlyBill amounts cc_payments.length /
              (estimatedMonthlyBill amounts cc_payments.length * 2.5))))

/-- Credit-history-length block, lines 180-196. -/
def credit_history_score (credit_age_years : ℚ) : ℚ :=
  if credit_age_years ≥ 7 then 95.0
  else if credit_age_years ≥ 5 then 85.0
  else if credit_age_years ≥ 3 then 70.0
  else if credit_age_years ≥ 1 then 55.0 + credit_age_years * 5
  else 50.0

/-- Status of the credit-history-length block. -/
def creditAgeStatus (credit_age_years : ℚ) : String :=
  if credit_age_years ≥ 7 then "Excellent"
  else if credit_age_years ≥ 5 then "Very Good"
  else if credit_age_years ≥ 3 then "Good"
  else if credit_age_years ≥ 1 then "Fair"
  else "Limited"

/-- Credit-mix block, lines 220-234, from the number of distinct non-empty
product buckets. -/
def credit_mix_score (num_credit_types : ℕ) : ℚ :=
  if num_credit_types ≥ 5 then 95.0
  else if num_credit_types = 4 then 85.0
  else if num_credit_types = 3 then 70.0
  else if num_credit_types = 2 then 55.0
  else 40.0

/-- Status of the credit-mix block. -/
def mixStatus (num_credit_types : ℕ) : String :=
  if num_credit_types ≥ 5 then "Excellent Mix"
  else if num_credit_types = 4 then "Very Good Mix"
  else if num_credit_types = 3 then "Good Mix"
  else if num_credit_types = 2 then "Limited Mix"
  else "Poor Mix"

/-- Lines 239-243: first appearance date of each category, in the input order
of `dated_transactions` (a dict filled on first occurrence). -/
def first_appearance_dates (dated : List Normalized) : List (String × ℤ) :=
  dated.foldl
    (fun acc t =>
      if (acc.lookup t.category).isSome then acc
      else acc ++ [(t.category, daysOf t.parsed_date)])
    []

/-- New-credit block, lines 248-259, from the count of recent inquiries. -/
def new_credit_score (recent_inquiries : ℕ) : ℚ :=
  if recent_inquiries = 0 then 90.0
  else if recent_inquiries ≤ 2 then 80.0
  else if recent_inquiries ≤ 4 then 65.0
  else 50.0

/-- Status of the new-credit block. -/
def inquiryStatus (recent_inquiries : ℕ) : String :=
  if recent_inquiries = 0 then "No Recent Inquiries"
  else if recent_inquiries ≤ 2 then "Minimal Inquiries"
  else if recent_inquiries ≤ 4 then "Moderate Inquiries"
  else "High Inquiry Activity"

/-- The module-level weight table `CIBIL_FACTORS` (lines 26-32). -/
structure Factors where
  payment_history : ℚ
  credit_utilization : ℚ
  credit_history_length : ℚ
  credit_mix : ℚ
  new_credit : ℚ
deriving DecidableEq, Repr

/-- Official CIBIL weightages used by the engine. -/
def CIBIL_FACTORS : Factors :=
  { payment_history := 0.35
    credit_utilization := 0.30
    credit_history_length := 0.15
    credit_mix := 0.10
    new_credit := 0.10 }

/-- Status band and loan-approval label from the final score
(lines 288-311). -/
def statusBands (final_cibil_score : ℤ) : String × String :=
  if final_cibil_score ≥ 850 then ("Exceptional (Peak)", "Maximum")
  else if final_cibil_score ≥ 800 then ("Excellent+", "Very High")
  else if final_cibil_score ≥ 750 then ("Excellent", "Very High")
  else if final_cibil_score ≥ 700 then ("Good", "High")
  else if final_cibil_score ≥ 650 then ("Fair", "Moderate")
  else if final_cibil_score ≥ 600 then ("Average", "Low")
  else ("Poor", "Very Low")

/-- Recommendation rules, lines 313-325, in source order. -/
def recommendationsOf (ph cu ch cm nc : ℚ) (final_cibil_score : ℤ) : List String :=
  (if ph < 80 then ["Maintain consistent monthly payments without delays"] else []) ++
  (if cu < 70 then ["Reduce credit card utilization below 30% of limit"] else []) ++
  (if ch < 70 then ["Keep old credit accounts active to build credit age"] else []) ++
  (if cm < 70 then ["Diversify credit portfolio with mix of secured and unsecured credit"] else []) ++
  (if nc < 75 then ["Avoid multiple credit applications in short period"] else []) ++
  (if final_cibil_score < 750 then
    ["Focus on timely payments to reach excellent score range (750+)"] else [])

/-- Score report returned by `calculate_cibil_score` (the dict of lines
327-384, minus the display-only strings described at the top of the file). -/
structure Report where
  cibil_score : ℤ
  status : String
  loan_approval_likelihood : String
  start_date : Date
  end_date : Date
  total_months : ℚ
  total_years : ℚ
  payment_history_score : ℚ
  credit_utilization_score : ℚ
  utilization_percentage : ℤ
  cur_status : String
  credit_history_length_score : ℚ
  credit_age_status : String
  credit_mix_score : ℚ
  types_count : ℕ
  mix_status : String
  new_credit_score : ℚ
  recent_inquiries : ℕ
  inquiry_status : String
  total_transactions : ℕ
  credit_card_payments : ℕ
  home_loan_payments : ℕ
  car_loan_payments : ℕ
  personal_loan_payments : ℕ
  education_loan_payments : ℕ
  insurance_payments : ℕ
  recommendations : List String
deriving DecidableEq, Repr

/-- Line 96: `start_date = min(dates)`. -/
def startDateOf (d0 : Normalized) (rest : List Normalized) : Date :=
  minDate d0.parsed_date (rest.map Normalized.parsed_date)

/-- Line 97: `end_date = max(dates)`. -/
def endDateOf (d0 : Normalized) (rest : List Normalized) : Date :=
  maxDate d0.parsed_date (rest.map Normalized.parsed_date)

/-- Lines 96-98 combined: the month span of the observed date range. -/
def monthsOf (d0 : Normalized) (rest : List Normalized) : ℚ :=
  dateRangeMonths (daysOf (startDateOf d0 rest)) (daysOf (endDateOf d0 rest))

/-- Line 99: `date_range_years = date_range_months / 12`. -/
def yearsOf (d0 : Normalized) (rest : List Normalized) : ℚ :=
  monthsOf d0 rest / 12

/-- Line 110: concatenation of the five credit buckets, in source order. -/
def allCreditOf (dated : List Normalized) : List Normalized :=
  bucketOf "credit_card" dated ++ bucketOf "home_loan" dated ++ bucketOf "car_loan" dated ++
    bucketOf "personal_loan" dated ++ bucketOf "education_loan" dated

/-- Day numbers of the combined credit-transaction pool. -/
def poolDaysOf (dated : List Normalized) : List ℤ :=
  (allCreditOf dated).map fun t => daysOf t.parsed_date

/-- Lines 201-218: how many of the seven product buckets are non-empty
(the code inserts a fixed name per non-empty bucket into a set and takes its
size). -/
def numTypesOf (dated : List Normalized) : ℕ :=
  (if (bucketOf "credit_card" dated).length ≠ 0 then 1 else 0) +
  (if (bucketOf "home_loan" dated).length ≠ 0 then 1 else 0) +
  (if (bucketOf "car_loan" dated).length ≠ 0 then 1 else 0) +
  (if (bucketOf "personal_loan" dated).length ≠ 0 then 1 else 0) +
  (if (bucketOf "education_loan" dated).length ≠ 0 then 1 else 0) +
  (if (bucketOf "life_insurance" dated).length ≠ 0 then 1 else 0) +
  (if (bucketOf "health_insurance" dated).length ≠ 0 then 1 else 0)

/-- Lines 245-246: count of categories whose first-appearance date falls in
the 180 days up to `end_date`. -/
def recentInquiriesOf (d0 : Normalized) (rest : List Normalized) : ℕ :=
  ((first_appearance_dates (d0 :: rest)).filter
    fun p => p.2 ≥ daysOf (endDateOf d0 rest) - 180).length

/-- Lines 264-270: the weighted sum of the five component scores. -/
def rawScore (ph cu ch cm nc : ℚ) : ℚ :=
  ph * CIBIL_FACTORS.payment_history +
  cu * CIBIL_FACTORS.credit_utilization +
  ch * CIBIL_FACTORS.credit_history_length +
  cm * CIBIL_FACTORS.credit_mix +
  nc * CIBIL_FACTORS.new_credit

/-- Line 272: `final_cibil_score = int(300 + (raw_score / 100.0) * 600)`. -/
def finalScore (raw : ℚ) : ℤ :=
  pyInt (300 + (raw / 100) * 600)

/-- Pure assembly of the report from the normalized transactions (with the
result of the fallible credit-utilization block passed in).  Follows lines
94-384 of the source. -/
def assembleReport (d0 : Normalized) (rest : List Normalized)
    (cuResult : ℚ × ℤ × String) : Report :=
  { cibil_score := finalScore (rawScore
      (payment_history_score (poolDaysOf (d0 :: rest)) (monthsOf d0 rest)) cuResult.1
      (credit_history_score (yearsOf d0 rest)) (credit_mix_score (numTypesOf (d0 :: rest)))
      (new_credit_score (recentInquiriesOf d0 rest)))
    status := (statusBands (finalScore (rawScore
      (payment_history_score (poolDaysOf (d0 :: rest)) (monthsOf d0 rest)) cuResult.1
      (credit_history_score (yearsOf d0 rest)) (credit_mix_score (numTypesOf (d0 :: rest)))
      (new_credit_score (recentInquiriesOf d0 rest))))).1
    loan_approval_likelihood := (statusBands (finalScore (rawScore
      (payment_history_score (poolDaysOf (d0 :: rest)) (monthsOf d0 rest)) cuResult.1
      (credit_history_score (yearsOf d0 rest)) (credit_mix_score (numTypesOf (d0 :: rest)))
      (new_credit_score (recentInquiriesOf d0 rest))))).2
    start_date := startDateOf d0 rest
    end_date := endDateOf d0 rest
    total_months := monthsOf d0 rest
    total_years := yearsOf d0 rest
    payment_history_score := payment_history_score (poolDaysOf (d0 :: rest)) (monthsOf d0 rest)
    credit_utilization_score := cuResult.1
    utilization_percentage := cuResult.2.1
    cur_status := cuResult.2.2
    credit_history_length_score := credit_history_score (yearsOf d0 rest)
    credit_age_status := creditAgeStatus (yearsOf d0 rest)
    credit_mix_score := credit_mix_score (numTypesOf (d0 :: rest))
    types_count := numTypesOf (d0 :: rest)
    mix_status := mixStatus (numTypesOf (d0 :: rest))
    new_credit_score := new_credit_score (recentInquiriesOf d0 rest)
    recent_inquiries := recentInquiriesOf d0 rest
    inquiry_status := inquiryStatus (recentInquiriesOf d0 rest)
    total_transactions := (d0 :: rest).length
    credit_card_payments := (bucketOf "credit_card" (d0 :: rest)).length
    home_loan_payments := (bucketOf "home_loan" (d0 :: rest)).length
    car_loan_payments := (bucketOf "car_loan" (d0 :: rest)).length
    personal_loan_payments := (bucketOf "personal_loan" (d0 :: rest)).length
    education_loan_payments := (bucketOf "education_loan" (d0 :: rest)).length
    insurance_payments := (bucketOf "life_insurance" (d0 :: rest)).length +
      (bucketOf "health_insurance" (d0 :: rest)).length
    recommendations := recommendationsOf
      (payment_history_score (poolDaysOf (d0 :: rest)) (monthsOf d0 rest)) cuResult.1
      (credit_history_score (yearsOf d0 rest)) (credit_mix_score (numTypesOf (d0 :: rest)))
      (new_credit_score (recentInquiriesOf d0 rest))
      (finalScore (rawScore
        (payment_history_score (poolDaysOf (d0 :: rest)) (monthsOf d0 rest)) cuResult.1
        (credit_history_score (yearsOf d0 rest)) (credit_mix_score (numTypesOf (d0 :: rest)))
        (new_credit_score (recentInquiriesOf d0 rest)))) }

/-- Source `calculate_cibil_score`, lines 74-384, with Python exceptions as
`Except.error`. -/
def calculate_cibil_score (transactions : List Txn) : Except CalcError Report :=
  if transactions.isEmpty then .error .noTransactions
  else
    match normalize transactions with
    | [] => .error .noValidDates
    | d0 :: rest =>
      (creditUtilization (bucketOf "credit_card" (d0 :: rest))).map
        (assembleReport d0 rest)

/-- Month span of the whole pipeline as a function of the raw input (the
value is only meaningful when `normalize` keeps at least one record; the
default 1 is never used under that hypothesis). -/
def spanMonthsOfTxns (transactions : List Txn) : ℚ :=
  match normalize transactions with
  | [] => 1
  | d0 :: rest => monthsOf d0 rest

/-
Specification-side definitions.  These transcribe the WORDING of the
specification (sections 4.3 and 8), to be compared with the code-side
functions above.
-/

/-- Spec 4.3: bucket payments-per-month into a consistency base score
(at least 1.5 per month gives 95; at least 1.0 gives 90; at least 0.5 gives
75; otherwise 60). -/
def specConsistencyBase (payments_per_month : ℚ) : ℚ :=
  if payments_per_month ≥ 1.5 then 95
  else if payments_per_month ≥ 1.0 then 90
  else if payments_per_month ≥ 0.5 then 75
  else 60

/-- Spec 4.3, Payment History: empty evidence pool scores 50; otherwise the
consistency base of pool-size / span-months, minus
`min(20, 5 * number of consecutive ascending gaps exceeding 45 days)`,
floored at 50. -/
def specPaymentHistory (pool : List ℤ) (span_months : ℚ) : ℚ :=
  if pool = [] then 50
  else
    max 50 (specConsistencyBase ((pool.length : ℚ) / span_months) -
      min 20 (5 * (countGaps (sortDays pool) : ℚ)))

/-
Concrete inputs and reports used by the claim theorems, witnesses and
counterexamples below, together with evaluation lemmas for them.
-/

/-- Credit-card payment dated 2020-01-01. -/
def txCc2020 : Txn := ⟨some "2020-01-01", some "CREDIT CARD PAYMENT", some 5000⟩

/-- Credit-card payment dated 2024-06-01. -/
def txCc2024 : Txn := ⟨some "2024-06-01", some "CREDIT CARD PAYMENT", some 5000⟩

/-- Normalized form of `txCc2020`. -/
def nCc2020 : Normalized := ⟨txCc2020, ⟨2020, 1, 1⟩, "credit_card"⟩

/-- Normalized form of `txCc2024`. -/
def nCc2024 : Normalized := ⟨txCc2024, ⟨2024, 6, 1⟩, "credit_card"⟩

/-- Two credit-card payments, oldest first. -/
def txnsPermA : List Txn := [txCc2020, txCc2024]

/-- The same two payments, newest first (a permutation of `txnsPermA`). -/
def txnsPermB : List Txn := [txCc2024, txCc2020]

/-- Report produced for `txnsPermA`. -/
def reportPermA : Report :=
  { cibil_score := 691, status := "Fair", loan_approval_likelihood := "Moderate",
    start_date := ⟨2020, 1, 1⟩, end_date := ⟨2024, 6, 1⟩,
    total_months := 1613/30, total_years := 1613/360,
    payment_history_score := 55, credit_utilization_score := 75,
    utilization_percentage := 40, cur_status := "Good",
    credit_history_length_score := 70, credit_age_status := "Good",
    credit_mix_score := 40, types_count := 1, mix_status := "Poor Mix",
    new_credit_score := 90, recent_inquiries := 0, inquiry_status := "No Recent Inquiries",
    total_transactions := 2, credit_card_payments := 2, home_loan_payments := 0,
    car_loan_payments := 0, personal_loan_payments := 0, education_loan_payments := 0,
    insurance_payments := 0,
    recommendations := ["Maintain consistent monthly payments without delays",
      "Diversify credit portfolio with mix of secured and unsecured credit",
      "Focus on timely payments to reach excellent score range (750+)"] }

/-- Report produced for `txnsPermB`: the first-appearance date of the
`credit_card` category is now the recent one, so the new-credit block sees
one recent inquiry and the final score drops from 691 to 685. -/
def reportPermB : Report :=
  { cibil_score := 685, status := "Fair", loan_approval_likelihood := "Moderate",
    start_date := ⟨2020, 1, 1⟩, end_date := ⟨2024, 6, 1⟩,
    total_months := 1613/30, total_years := 1613/360,
    payment_history_score := 55, credit_utilization_score := 75,
    utilization_percentage := 40, cur_status := "Good",
    credit_history_length_score := 70, credit_age_status := "Good",
    credit_mix_score := 40, types_count := 1, mix_status := "Poor Mix",
    new_credit_score := 80, recent_inquiries := 1, inquiry_status := "Minimal Inquiries",
    total_transactions := 2, credit_card_payments := 2, home_loan_payments := 0,
    car_loan_payments := 0, personal_loan_payments := 0, education_loan_payments := 0,
    insurance_payments := 0,
    recommendations := ["Maintain consistent monthly payments without delays",
      "Diversify credit portfolio with mix of secured and unsecured credit",
      "Focus on timely payments to reach excellent score range (750+)"] }

/-- Credit-card payment dated 2023-01-01. -/
def txGb1 : Txn := ⟨some "2023-01-01", some "CREDIT CARD PAYMENT", some 5000⟩

/-- Credit-card payment dated 2023-11-01. -/
def txGb2 : Txn := ⟨some "2023-11-01", some "CREDIT CARD PAYMENT", some 5000⟩

/-- Credit-card payment dated 2023-05-01. -/
def txGb3 : Txn := ⟨some "2023-05-01", some "CREDIT CARD PAYMENT", some 5000⟩

/-- Credit-card payment dated 2023-08-01. -/
def txGb4 : Txn := ⟨some "2023-08-01", some "CREDIT CARD PAYMENT", some 5000⟩

/-- Normalized forms of the four gap-scenario payments. -/
def nGb1 : Normalized := ⟨txGb1, ⟨2023, 1, 1⟩, "credit_card"⟩

/-- Normalized form of `txGb2`. -/
def nGb2 : Normalized := ⟨txGb2, ⟨2023, 11, 1⟩, "credit_card"⟩

/-- Normalized form of `txGb3`. -/
def nGb3 : Normalized := ⟨txGb3, ⟨2023, 5, 1⟩, "credit_card"⟩

/-- Normalized form of `txGb4`. -/
def nGb4 : Normalized := ⟨txGb4, ⟨2023, 8, 1⟩, "credit_card"⟩

/-- Two payments 304 days apart: one gap exceeding 45 days. -/
def txnsGapBase : List Txn := [txGb1, txGb2]

/-- The same two payments plus two more, evenly spaced inside the same date
span (2023-05-01 and 2023-08-01, so the sorted pool is 0/120/212/304 days):
now three consecutive gaps exceed 45 days. -/
def txnsGapSplit : List Txn := [txGb1, txGb2, txGb3, txGb4]

/-- Single credit-card payment carrying amount 0 (its date parses). -/
def txnsZeroCc : List Txn := [⟨some "2024-01-01", some "CREDIT CARD PAYMENT", some 0⟩]

/-- Normalized form of the zero-amount credit-card payment. -/
def nZeroCc : Normalized :=
  ⟨⟨some "2024-01-01", some "CREDIT CARD PAYMENT", some 0⟩, ⟨2024, 1, 1⟩, "credit_card"⟩

/-- Single credit-card payment that lacks the `amount` field entirely
(its date parses). -/
def txnsNoAmt : List Txn := [⟨some "2024-01-01", some "CREDIT CARD PAYMENT", none⟩]

/-- Normalized form of the amount-less credit-card payment. -/
def nNoAmt : Normalized :=
  ⟨⟨some "2024-01-01", some "CREDIT CARD PAYMENT", none⟩, ⟨2024, 1, 1⟩, "credit_card"⟩

/-- Input exercising the tolerated missing fields: the first record lacks
`description` and `amount` (but has a parseable date and is categorized
`other`), the second lacks `date` (and is dropped). -/
def txnsSparse : List Txn :=
  [⟨some "2024-01-01", none, none⟩, ⟨none, some "HOME LOAN EMI", some 100⟩]

/-- Two credit-card payments with explicit zero amounts. -/
def txnsZeroPair : List Txn :=
  [⟨some "2024-01-01", some "CC EMI", some 0⟩, ⟨some "2024-02-01", some "CC EMI", some 0⟩]

lemma evalPermA : calculate_cibil_score txnsPermA = .ok reportPermA := by
  have hn : normalize txnsPermA = [nCc2020, nCc2024] := by decide
  have hb : bucketOf "credit_card" [nCc2020, nCc2024] = [nCc2020, nCc2024] := by decide
  have ha : allAmounts [nCc2020, nCc2024] = some [5000, 5000] := by decide
  have hcu : creditUtilization [nCc2020, nCc2024] = .ok (75, 40, "Good") := by
    simp only [creditUtilization, ha]
    norm_num [estimatedMonthlyBill, curScorePiece, curStatusPiece, pyInt]
  have hpool : poolDaysOf [nCc2020, nCc2024] = [737425, 739038] := by decide
  have hsd : startDateOf nCc2020 [nCc2024] = ⟨2020, 1, 1⟩ := by decide
  have hed : endDateOf nCc2020 [nCc2024] = ⟨2024, 6, 1⟩ := by decide
  have hds : daysOf ⟨2020, 1, 1⟩ = 737425 := by decide
  have hde : daysOf ⟨2024, 6, 1⟩ = 739038 := by decide
  have hm : monthsOf nCc2020 [nCc2024] = 1613/30 := by
    rw [monthsOf, hsd, hed, hds, hde, dateRangeMonths]; norm_num
  have hy : yearsOf nCc2020 [nCc2024] = 1613/360 := by
    rw [yearsOf, hm]; norm_num
  have hg : countGaps (sortDays [737425, 739038]) = 1 := by decide
  have hph : payment_history_score [(737425 : ℤ), 739038] (1613/30) = 55 := by
    rw [payment_history_score]
    simp only [hg]
    rw [show max (1 : ℚ) (1613/30) = 1613/30 from max_eq_right (by norm_num)]
    norm_num [consistencyBase]
  have hch : credit_history_score (1613/360) = 70 := by
    norm_num [credit_history_score]
  have hcas : creditAgeStatus (1613/360) = "Good" := by
    norm_num [creditAgeStatus]
  have hnt : numTypesOf [nCc2020, nCc2024] = 1 := by decide
  have hri : recentInquiriesOf nCc2020 [nCc2024] = 0 := by decide
  have hraw : rawScore 55 75 70 (credit_mix_score 1) (new_credit_score 0) = 261/4 := by
    norm_num [rawScore, credit_mix_score, new_credit_score, CIBIL_FACTORS]
  have hfs : finalScore (261/4) = 691 := by
    norm_num [finalScore, pyInt]
  have hte : txnsPermA.isEmpty = false := by decide
  have hb2 : bucketOf "home_loan" [nCc2020, nCc2024] = [] := by decide
  have hb3 : bucketOf "car_loan" [nCc2020, nCc2024] = [] := by decide
  have hb4 : bucketOf "personal_loan" [nCc2020, nCc2024] = [] := by decide
  have hb5 : bucketOf "education_loan" [nCc2020, nCc2024] = [] := by decide
  have hb6 : bucketOf "life_insurance" [nCc2020, nCc2024] = [] := by decide
  have hb7 : bucketOf "health_insurance" [nCc2020, nCc2024] = [] := by decide
  simp only [calculate_cibil_score, hte, hn, hb, hcu, Except.map, Bool.false_eq_true, if_false]
  simp only [assembleReport, hpool, hsd, hed, hm, hy, hph, hch, hcas, hnt, hri, hraw, hfs,
    hb, hb2, hb3, hb4, hb5, hb6, hb7]
  norm_num [reportPermA, statusBands, recommendationsOf, credit_mix_score, new_credit_score,
    mixStatus, inquiryStatus]

lemma evalPermB : calculate_cibil_score txnsPermB = .ok reportPermB := by
  have hn : normalize txnsPermB = [nCc2024, nCc2020] := by decide
  have hb : bucketOf "credit_card" [nCc2024, nCc2020] = [nCc2024, nCc2020] := by decide
  have ha : allAmounts [nCc2024, nCc2020] = some [5000, 5000] := by decide
  have hcu : creditUtilization [nCc2024, nCc2020] = .ok (75, 40, "Good") := by
    simp only [creditUtilization, ha]
    norm_num [estimatedMonthlyBill, curScorePiece, curStatusPiece, pyInt]
  have hpool : poolDaysOf [nCc2024, nCc2020] = [739038, 737425] := by decide
  have hsd : startDateOf nCc2024 [nCc2020] = ⟨2020, 1, 1⟩ := by decide
  have hed : endDateOf nCc2024 [nCc2020] = ⟨2024, 6, 1⟩ := by decide
  have hds : daysOf ⟨2020, 1, 1⟩ = 737425 := by decide
  have hde : daysOf ⟨2024, 6, 1⟩ = 739038 := by decide
  have hm : monthsOf nCc2024 [nCc2020] = 1613/30 := by
    rw [monthsOf, hsd, hed, hds, hde, dateRangeMonths]; norm_num
  have hy : yearsOf nCc2024 [nCc2020] = 1613/360 := by
    rw [yearsOf, hm]; norm_num
  have hg : countGaps (sortDays [739038, 737425]) = 1 := by decide
  have hph : payment_history_score [(739038 : ℤ), 737425] (1613/30) = 55 := by
    rw [payment_history_score]
    simp only [hg]
    rw [show max (1 : ℚ) (1613/30) = 1613/30 from max_eq_right (by norm_num)]
    norm_num [consistencyBase]
  have hch : credit_history_score (1613/360) = 70 := by
    norm_num [credit_history_score]
  have hcas : creditAgeStatus (1613/360) = "Good" := by
    norm_num [creditAgeStatus]
  have hnt : numTypesOf [nCc2024, nCc2020] = 1 := by decide
  have hri : recentInquiriesOf nCc2024 [nCc2020] = 1 := by decide
  have hraw : rawScore 55 75 70 (credit_mix_score 1) (new_credit_score 1) = 257/4 := by
    norm_num [rawScore, credit_mix_score, new_credit_score, CIBIL_FACTORS]
  have hfs : finalScore (257/4) = 685 := by
    norm_num [finalScore, pyInt]
  have hte : txnsPermB.isEmpty = false := by decide
  have hb2 : bucketOf "home_loan" [nCc2024, nCc2020] = [] := by decide
  have hb3 : bucketOf "car_loan" [nCc2024, nCc2020] = [] := by decide
  have hb4 : bucketOf "personal_loan" [nCc2024, nCc2020] = [] := by decide
  have hb5 : bucketOf "education_loan" [nCc2024, nCc2020] = [] := by decide
  have hb6 : bucketOf "life_insurance" [nCc2024, nCc2020] = [] := by decide
  have hb7 : bucketOf "health_insurance" [nCc2024, nCc2020] = [] := by decide
  simp only [calculate_cibil_score, hte, hn, hb, hcu, Except.map, Bool.false_eq_true, if_false]
  simp only [assembleReport, hpool, hsd, hed, hm, hy, hph, hch, hcas, hnt, hri, hraw, hfs,
    hb, hb2, hb3, hb4, hb5, hb6, hb7]
  norm_num [reportPermB, statusBands, recommendationsOf, credit_mix_score, new_credit_score,
    mixStatus, inquiryStatus]

lemma evalGapBase :
    (calculate_cibil_score txnsGapBase).map
      (fun r => (r.payment_history_score, r.start_date, r.end_date)) =
    .ok (55, ⟨2023, 1, 1⟩, ⟨2023, 11, 1⟩) := by
  have hn : normalize txnsGapBase = [nGb1, nGb2] := by decide
  have hb : bucketOf "credit_card" [nGb1, nGb2] = [nGb1, nGb2] := by decide
  have ha : allAmounts [nGb1, nGb2] = some [5000, 5000] := by decide
  have hcu : creditUtilization [nGb1, nGb2] = .ok (75, 40, "Good") := by
    simp only [creditUtilization, ha]
    norm_num [estimatedMonthlyBill, curScorePiece, curStatusPiece, pyInt]
  have hpool : poolDaysOf [nGb1, nGb2] = [738521, 738825] := by decide
  have hsd : startDateOf nGb1 [nGb2] = ⟨2023, 1, 1⟩ := by decide
  have hed : endDateOf nGb1 [nGb2] = ⟨2023, 11, 1⟩ := by decide
  have hds : daysOf ⟨2023, 1, 1⟩ = 738521 := by decide
  have hde : daysOf ⟨2023, 11, 1⟩ = 738825 := by decide
  have hm : monthsOf nGb1 [nGb2] = 152/15 := by
    rw [monthsOf, hsd, hed, hds, hde, dateRangeMonths]; norm_num
  have hg : countGaps (sortDays [738521, 738825]) = 1 := by decide
  have hph : payment_history_score [(738521 : ℤ), 738825] (152/15) = 55 := by
    rw [payment_history_score]
    simp only [hg]
    rw [show max (1 : ℚ) (152/15) = 152/15 from max_eq_right (by norm_num)]
    norm_num [consistencyBase]
  have hte : txnsGapBase.isEmpty = false := by decide
  simp only [calculate_cibil_score, hte, hn, hb, hcu, Except.map, Bool.false_eq_true, if_false,
    assembleReport, hpool, hm, hph, hsd, hed]

lemma evalGapSplit :
    (calculate_cibil_score txnsGapSplit).map
      (fun r => (r.payment_history_score, r.start_date, r.end_date)) =
    .ok (50, ⟨2023, 1, 1⟩, ⟨2023, 11, 1⟩) := by
  have hn : normalize txnsGapSplit = [nGb1, nGb2, nGb3, nGb4] := by decide
  have hb : bucketOf "credit_card" [nGb1, nGb2, nGb3, nGb4] = [nGb1, nGb2, nGb3, nGb4] := by
    decide
  have ha : allAmounts [nGb1, nGb2, nGb3, nGb4] = some [5000, 5000, 5000, 5000] := by decide
  have hcu : creditUtilization [nGb1, nGb2, nGb3, nGb4] = .ok (75, 40, "Good") := by
    simp only [creditUtilization, ha]
    norm_num [estimatedMonthlyBill, curScorePiece, curStatusPiece, pyInt]
  have hpool : poolDaysOf [nGb1, nGb2, nGb3, nGb4] = [738521, 738825, 738641, 738733] := by
    decide
  have hsd : startDateOf nGb1 [nGb2, nGb3, nGb4] = ⟨2023, 1, 1⟩ := by decide
  have hed : endDateOf nGb1 [nGb2, nGb3, nGb4] = ⟨2023, 11, 1⟩ := by decide
  have hds : daysOf ⟨2023, 1, 1⟩ = 738521 := by decide
  have hde : daysOf ⟨2023, 11, 1⟩ = 738825 := by decide
  have hm : monthsOf nGb1 [nGb2, nGb3, nGb4] = 152/15 := by
    rw [monthsOf, hsd, hed, hds, hde, dateRangeMonths]; norm_num
  have hg : countGaps (sortDays [738521, 738825, 738641, 738733]) = 3 := by decide
  have hph : payment_history_score [(738521 : ℤ), 738825, 738641, 738733] (152/15) = 50 := by
    rw [payment_history_score]
    simp only [hg]
    rw [show max (1 : ℚ) (152/15) = 152/15 from max_eq_right (by norm_num)]
    norm_num [consistencyBase]
  have hte : txnsGapSplit.isEmpty = false := by decide
  simp only [calculate_cibil_score, hte, hn, hb, hcu, Except.map, Bool.false_eq_true, if_false,
    assembleReport, hpool, hm, hph, hsd, hed]

lemma evalZeroCc : calculate_cibil_score txnsZeroCc = .error .zeroDivision := by
  have hn : normalize txnsZeroCc = [nZeroCc] := by decide
  have hb : bucketOf "credit_card" [nZeroCc] = [nZeroCc] := by decide
  have ha : allAmounts [nZeroCc] = some [0] := by decide
  have hcu : creditUtilization [nZeroCc] = .error .zeroDivision := by
    simp only [creditUtilization, ha]
    norm_num [estimatedMonthlyBill]
  have hte : txnsZeroCc.isEmpty = false := by decide
  simp only [calculate_cibil_score, hte, hn, hb, hcu, Except.map, Bool.false_eq_true, if_false]

lemma evalNoAmt : calculate_cibil_score txnsNoAmt = .error .keyErrorAmount := by
  have hn : normalize txnsNoAmt = [nNoAmt] := by decide
  have hb : bucketOf "credit_card" [nNoAmt] = [nNoAmt] := by decide
  have ha : allAmounts [nNoAmt] = none := by decide
  have hcu : creditUtilization [nNoAmt] = .error .keyErrorAmount := by
    simp only [creditUtilization, ha]
  have hte : txnsNoAmt.isEmpty = false := by decide
  simp only [calculate_cibil_score, hte, hn, hb, hcu, Except.map, Bool.false_eq_true, if_false]

lemma calc_ok {transactions : List Txn} {r : Report}
    (h : calculate_cibil_score transactions = .ok r) :
    ∃ d0 rest cu, normalize transactions = d0 :: rest ∧
      creditUtilization (bucketOf "credit_card" (d0 :: rest)) = .ok cu ∧
      r = assembleReport d0 rest cu := by
  rcases transactions with _ | ⟨t0, ts⟩
  · simp [calculate_cibil_score] at h
  · rcases hn : normalize (t0 :: ts) with _ | ⟨d0, rest⟩
    · simp only [calculate_cibil_score, List.isEmpty_cons, Bool.false_eq_true, if_false, hn] at h
      exact absurd h (by simp)
    · simp only [calculate_cibil_score, List.isEmpty_cons, Bool.false_eq_true, if_false, hn] at h
      rcases hcu : creditUtilization (bucketOf "credit_card" (d0 :: rest)) with e | cu
      · rw [hcu] at h; simp [Except.map] at h
      · rw [hcu] at h
        simp only [Except.map, Except.ok.injEq] at h
        exact ⟨d0, rest, cu, rfl, hcu, h.symm⟩

lemma creditUtilization_ok_cases {cc : List Normalized} {s : ℚ} {p : ℤ} {st : String}
    (h : creditUtilization cc = .ok (s, p, st)) :
    (cc = [] ∧ s = 70 ∧ p = 0) ∨ (cc ≠ [] ∧ s = 75 ∧ p = 40) := by
  rcases cc with _ | ⟨c, cs⟩
  · left
    simp only [creditUtilization, Except.ok.injEq, Prod.mk.injEq] at h
    norm_num [h.1.symm, h.2.1.symm]
  · right
    refine ⟨by simp, ?_⟩
    rcases ha : allAmounts (c :: cs) with _ | amts
    · simp only [creditUtilization, ha] at h
      exact absurd h (by simp)
    · simp only [creditUtilization, ha] at h
      by_cases hz : estimatedMonthlyBill amts (c :: cs).length * 2.5 = 0
      · rw [if_pos hz] at h; exact absurd h (by simp)
      · rw [if_neg hz] at h
        simp only [Except.ok.injEq, Prod.mk.injEq] at h
        have hb : estimatedMonthlyBill amts (c :: cs).length ≠ 0 := by
          intro h0; exact hz (by rw [h0]; ring)
        have hcur : estimatedMonthlyBill amts (c :: cs).length /
            (estimatedMonthlyBill amts (c :: cs).length * 2.5) = 2/5 := by
          rw [div_eq_iff (mul_ne_zero hb (by norm_num))]
          ring
        rw [hcur] at h
        have hmin : min (1.0 : ℚ) (2/5) = 2/5 := by norm_num
        rw [hmin] at h
        refine ⟨h.1.symm.trans (by norm_num [curScorePiece]), ?_⟩
        exact h.2.1.symm.trans (by norm_num [pyInt])

lemma allAmounts_zero : ∀ (l : List Normalized), (∀ t ∈ l, t.txn.amount = some 0) →
    allAmounts l = some (l.map fun _ => (0 : ℚ))
  | [], _ => rfl
  | t :: ts, h => by
    have h0 := h t (List.mem_cons_self t ts)
    have hrec := allAmounts_zero ts fun x hx => h x (List.mem_cons_of_mem t hx)
    simp only [allAmounts, h0, hrec, List.map_cons]

lemma creditUtilization_zero {cc : List Normalized} (hne : cc ≠ [])
    (h0 : ∀ t ∈ cc, t.txn.amount = some 0) :
    creditUtilization cc = .error .zeroDivision := by
  rcases cc with _ | ⟨c, cs⟩
  · exact absurd rfl hne
  · have ha := allAmounts_zero (c :: cs) h0
    simp only [creditUtilization, ha]
    rw [if_pos]
    rw [estimatedMonthlyBill]
    have : (((c :: cs).map fun _ => (0 : ℚ)).map fun a => |a|).sum = 0 := by
      apply List.sum_eq_zero
      intro x hx
      simp only [List.map_map, List.mem_map] at hx
      obtain ⟨y, _, hy⟩ := hx
      simp [← hy]
    rw [this]
    ring

lemma consistencyBase_le (x : ℚ) : consistencyBase x ≤ 95 := by
  unfold consistencyBase; split_ifs <;> norm_num

lemma consistencyBase_mono {x y : ℚ} (h : x ≤ y) : consistencyBase x ≤ consistencyBase y := by
  unfold consistencyBase; split_ifs <;> linarith

lemma payment_history_score_bounds (pool : List ℤ) (months : ℚ) :
    50 ≤ payment_history_score pool months ∧ payment_history_score pool months ≤ 95 := by
  unfold payment_history_score
  split_ifs with h
  · norm_num
  · constructor
    · exact le_max_left _ _
    · apply max_le (by norm_num)
      have h1 : consistencyBase ((pool.length : ℚ) / max 1 months) ≤ 95 := consistencyBase_le _
      have h2 : (0 : ℚ) ≤ min 20 (5 * (countGaps (sortDays pool) : ℚ)) :=
        le_min (by norm_num) (by positivity)
      linarith

lemma credit_history_score_bounds (y : ℚ) :
    50 ≤ credit_history_score y ∧ credit_history_score y ≤ 95 := by
  unfold credit_history_score
  split_ifs with h1 h2 h3 h4 <;> push_neg at * <;> constructor <;> linarith

lemma credit_mix_score_bounds (n : ℕ) :
    40 ≤ credit_mix_score n ∧ credit_mix_score n ≤ 95 := by
  unfold credit_mix_score; split_ifs <;> norm_num

lemma new_credit_score_bounds (n : ℕ) :
    50 ≤ new_credit_score n ∧ new_credit_score n ≤ 90 := by
  unfold new_credit_score; split_ifs <;> norm_num

lemma monthsOf_ge_one (d0 : Normalized) (rest : List Normalized) : 1 ≤ monthsOf d0 rest :=
  le_max_left _ _

lemma consistencyBase_eq_spec (x : ℚ) : consistencyBase x = specConsistencyBase x := by
  unfold consistencyBase specConsistencyBase; split_ifs <;> norm_num

lemma payment_history_eq_spec (pool : List ℤ) (months : ℚ) (h : 1 ≤ months) :
    payment_history_score pool months = specPaymentHistory pool months := by
  unfold payment_history_score specPaymentHistory
  rw [max_eq_right h, consistencyBase_eq_spec]
  rcases pool with _ | ⟨a, l⟩
  · norm_num
  · simp

/-- C8: the five component weights (0.35, 0.30, 0.15, 0.10, 0.10) sum to
exactly 1.00. -/
theorem C8_weights_sum_to_one :
    CIBIL_FACTORS.payment_history + CIBIL_FACTORS.credit_utilization +
      CIBIL_FACTORS.credit_history_length + CIBIL_FACTORS.credit_mix +
      CIBIL_FACTORS.new_credit = 1 := by
  norm_num [CIBIL_FACTORS]

/-- C3: an empty transaction list fails with the empty-input error, and a
non-empty list in which every record date fails all five formats fails with
the no-valid-dates error; in both cases only an error (never a report) is
returned. -/
theorem C3_input_errors :
    calculate_cibil_score [] = .error .noTransactions ∧
    ∀ (transactions : List Txn), transactions ≠ [] →
      (∀ t ∈ transactions, parse_transaction_date (t.date.getD "") = none) →
      calculate_cibil_score transactions = .error .noValidDates := by
  refine ⟨rfl, ?_⟩
  intro txns hne hall
  have hn : normalize txns = [] := by
    rw [normalize, List.filterMap_eq_nil_iff]
    intro t ht
    rw [hall t ht]
    rfl
  rcases txns with _ | ⟨t0, ts⟩
  · exact absurd rfl hne
  · simp only [calculate_cibil_score, List.isEmpty_cons, Bool.false_eq_true, if_false, hn]

/-- Witness for C3 at a concrete all-garbage-dates input. -/
theorem C3_input_errors_witness :
    calculate_cibil_score [(⟨some "not-a-date", some "CREDIT CARD PAYMENT", some 100⟩ : Txn)] =
      .error .noValidDates :=
  C3_input_errors.2 _ (by decide) (by decide)

/-- C1: the engine is NOT invariant under permutation of the input list:
`txnsPermB` is a permutation of `txnsPermA`, yet the reports differ
(final score 691 versus 685), because the first-appearance date of a
category is taken in input order rather than as the earliest date. -/
theorem C1_not_permutation_invariant :
    List.Perm txnsPermA txnsPermB ∧
    (calculate_cibil_score txnsPermA).map Report.cibil_score = .ok 691 ∧
    (calculate_cibil_score txnsPermB).map Report.cibil_score = .ok 685 ∧
    calculate_cibil_score txnsPermA ≠ calculate_cibil_score txnsPermB := by
  refine ⟨by decide, ?_, ?_, ?_⟩
  · rw [evalPermA]; rfl
  · rw [evalPermB]; rfl
  · rw [evalPermA, evalPermB]
    intro h
    injection h with h2
    have h691 : reportPermA.cibil_score = 691 := rfl
    rw [h2] at h691
    have h685 : reportPermB.cibil_score = 685 := rfl
    rw [h685] at h691
    exact absurd h691 (by decide)

/-- C5: the piecewise utilization score: 95 up to ratio 0.30 (including the
boundary point 0.30 itself), the linear interpolation from 85 to 65 over
(0.30, 0.50], the linear interpolation from 65 to 45 over (0.50, 0.70],
`max(30, 45 - (r - 0.70)/0.30 * 15)` above 0.70, and score 70 with a 0%
reported utilization when the credit-card bucket is empty. -/
theorem C5_utilization_piecewise :
    (∀ cur : ℚ, cur ≤ 0.30 → curScorePiece cur = 95) ∧
    (∀ cur : ℚ, 0.30 < cur → cur ≤ 0.50 →
      curScorePiece cur = 85 + (cur - 0.30) / (0.50 - 0.30) * (65 - 85)) ∧
    (∀ cur : ℚ, 0.50 < cur → cur ≤ 0.70 →
      curScorePiece cur = 65 + (cur - 0.50) / (0.70 - 0.50) * (45 - 65)) ∧
    (∀ cur : ℚ, 0.70 < cur →
      curScorePiece cur = max 30 (45 - (cur - 0.70) / 0.30 * 15)) ∧
    curScorePiece 0.30 = 95 ∧
    creditUtilization [] = .ok (70, 0, "No Credit Card Usage") := by
  refine ⟨?_, ?_, ?_, ?_, ?_, ?_⟩
  · intro cur h
    rw [curScorePiece, if_pos h]
    norm_num
  · intro cur h1 h2
    rw [curScorePiece, if_neg (not_le.mpr h1), if_pos h2]
    ring_nf
  · intro cur h1 h2
    rw [curScorePiece, if_neg (not_le.mpr (by linarith)), if_neg (not_le.mpr h1), if_pos h2]
    ring_nf
  · intro cur h
    rw [curScorePiece, if_neg (not_le.mpr (by linarith)), if_neg (not_le.mpr (by linarith)),
      if_neg (not_le.mpr h)]
  · rw [curScorePiece, if_pos le_rfl]
    norm_num
  · simp only [creditUtilization, Except.ok.injEq, Prod.mk.injEq]
    norm_num

/-- Witness for C5: the piecewise formula evaluated inside each segment. -/
theorem C5_utilization_piecewise_witness :
    curScorePiece 0.25 = 95 ∧ curScorePiece 0.40 = 75 ∧ curScorePiece 0.60 = 55 ∧
    curScorePiece 0.80 = 40 := by
  obtain ⟨h1, h2, h3, h4, _, _⟩ := C5_utilization_piecewise
  refine ⟨h1 0.25 (by norm_num), ?_, ?_, ?_⟩
  · rw [h2 0.40 (by norm_num) (by norm_num)]; norm_num
  · rw [h3 0.60 (by norm_num) (by norm_num)]; norm_num
  · rw [h4 0.80 (by norm_num)]
    rw [max_eq_right (by norm_num)]
    norm_num

/-- C9: when the credit-card bucket is non-empty but every credit-card
transaction carries amount 0, the utilization division divides by zero and
the whole computation fails (no report). -/
theorem C9_zero_amount_crash :
    ∀ (transactions : List Txn),
      bucketOf "credit_card" (normalize transactions) ≠ [] →
      (∀ t ∈ bucketOf "credit_card" (normalize transactions), t.txn.amount = some 0) →
      calculate_cibil_score transactions = .error .zeroDivision := by
  intro txns h1 h2
  have hnn : normalize txns ≠ [] := by
    intro h0
    rw [h0] at h1
    exact h1 rfl
  rcases txns with _ | ⟨t0, ts⟩
  · exact absurd rfl hnn
  · rcases hn : normalize (t0 :: ts) with _ | ⟨d0, rest⟩
    · exact absurd hn hnn
    · rw [hn] at h1 h2
      simp only [calculate_cibil_score, List.isEmpty_cons, Bool.false_eq_true, if_false, hn]
      rw [creditUtilization_zero h1 h2]
      rfl

/-- Witness for C9 at a concrete two-transaction zero-amount input. -/
theorem C9_zero_amount_crash_witness :
    calculate_cibil_score txnsZeroPair = .error .zeroDivision :=
  C9_zero_amount_crash txnsZeroPair (by decide) (by decide)

/-- C6 as stated is false: adding two evenly spaced on-time credit-card
payments (2023-05-01 and 2023-08-01) strictly inside the unchanged span
2023-01-01 to 2023-11-01 DECREASES the Payment History score from 55 to 50,
because the single 304-day gap becomes three gaps above 45 days. -/
theorem C6_gap_counterexample :
    txnsGapSplit = txnsGapBase ++ [txGb3, txGb4] ∧
    (calculate_cibil_score txnsGapBase).map
        (fun r => (r.payment_history_score, r.start_date, r.end_date)) =
      .ok (55, ⟨2023, 1, 1⟩, ⟨2023, 11, 1⟩) ∧
    (calculate_cibil_score txnsGapSplit).map
        (fun r => (r.payment_history_score, r.start_date, r.end_date)) =
      .ok (50, ⟨2023, 1, 1⟩, ⟨2023, 11, 1⟩) ∧
    (50 : ℚ) < 55 :=
  ⟨rfl, evalGapBase, evalGapSplit, by norm_num⟩

/-- C6 amended: over an unchanged month span, enlarging the payment pool
never decreases the Payment History score PROVIDED the number of
above-45-day consecutive gaps does not increase (which monthly, at most
45-days-apart payments guarantee). -/
theorem C6_monotone_amended :
    ∀ (pool extended : List ℤ) (months : ℚ),
      pool.length ≤ extended.length →
      countGaps (sortDays extended) ≤ countGaps (sortDays pool) →
      payment_history_score pool months ≤ payment_history_score extended months := by
  intro pool ext months hlen hgap
  unfold payment_history_score
  by_cases hp : pool.length = 0
  · rw [if_pos hp]
    by_cases he : ext.length = 0
    · rw [if_pos he]
    · rw [if_neg he]
      exact le_trans (by norm_num) (le_max_left _ _)
  · rw [if_neg hp]
    have he : ¬ ext.length = 0 := by omega
    rw [if_neg he]
    have hm0 : (0 : ℚ) < max 1 months := lt_of_lt_of_le zero_lt_one (le_max_left 1 months)
    apply max_le_max le_rfl
    apply sub_le_sub
    · apply consistencyBase_mono
      apply div_le_div_of_nonneg_right ?_ hm0.le
      exact_mod_cast hlen
    · apply min_le_min le_rfl
      have : (countGaps (sortDays ext) : ℚ) ≤ countGaps (sortDays pool) := Nat.cast_le.mpr hgap
      linarith

/-- Witness for the amended C6: pool 0/31 days enlarged to 0/15/31 days over
a 31/30-month span; no gap exceeds 45 days on either side. -/
theorem C6_monotone_amended_witness :
    payment_history_score [(0 : ℤ), 31] (31/30) ≤
      payment_history_score [(0 : ℤ), 15, 31] (31/30) :=
  C6_monotone_amended [(0 : ℤ), 31] [(0 : ℤ), 15, 31] (31/30) (by decide) (by decide)

/-- C2 as stated is false: this input has a transaction whose date parses
(indeed every date parses), yet no final score exists at all, because the
single credit-card transaction has amount 0 and the utilization division
raises. -/
theorem C2_score_range_counterexample :
    (∀ t ∈ txnsZeroCc, (parse_transaction_date (t.date.getD "")).isSome = true) ∧
    calculate_cibil_score txnsZeroCc = .error .zeroDivision :=
  ⟨by decide, evalZeroCc⟩

/-- C2 amended: whenever `calculate_cibil_score` does return a report, its
final score equals `floor(300 + weighted_sum / 100 * 600)` over the five
reported component scores, and lies in the closed interval [300, 900]. -/
theorem C2_score_formula_and_range :
    ∀ (transactions : List Txn) (r : Report),
      calculate_cibil_score transactions = .ok r →
      r.cibil_score =
        ⌊(300 : ℚ) + rawScore r.payment_history_score r.credit_utilization_score
            r.credit_history_length_score r.credit_mix_score r.new_credit_score / 100 * 600⌋ ∧
      300 ≤ r.cibil_score ∧ r.cibil_score ≤ 900 := by
  intro txns r h
  obtain ⟨d0, rest, cu, hn, hcu, hr⟩ := calc_ok h
  obtain ⟨s, p, st⟩ := cu
  have hs : (70 : ℚ) ≤ s ∧ s ≤ 75 := by
    rcases creditUtilization_ok_cases hcu with ⟨_, hs, _⟩ | ⟨_, hs, _⟩ <;> rw [hs] <;>
      norm_num
  subst hr
  dsimp only [assembleReport]
  have hA := payment_history_score_bounds (poolDaysOf (d0 :: rest)) (monthsOf d0 rest)
  have hC := credit_history_score_bounds (yearsOf d0 rest)
  have hD := credit_mix_score_bounds (numTypesOf (d0 :: rest))
  have hE := new_credit_score_bounds (recentInquiriesOf d0 rest)
  have hraw : 0 ≤ rawScore (payment_history_score (poolDaysOf (d0 :: rest)) (monthsOf d0 rest))
        s (credit_history_score (yearsOf d0 rest)) (credit_mix_score (numTypesOf (d0 :: rest)))
        (new_credit_score (recentInquiriesOf d0 rest)) ∧
      rawScore (payment_history_score (poolDaysOf (d0 :: rest)) (monthsOf d0 rest))
        s (credit_history_score (yearsOf d0 rest)) (credit_mix_score (numTypesOf (d0 :: rest)))
        (new_credit_score (recentInquiriesOf d0 rest)) ≤ 100 := by
    unfold rawScore
    simp only [CIBIL_FACTORS]
    norm_num
    constructor <;> nlinarith [hA.1, hA.2, hC.1, hC.2, hD.1, hD.2, hE.1, hE.2, hs.1, hs.2]
  have h0 : (0 : ℚ) ≤ 300 +
      rawScore (payment_history_score (poolDaysOf (d0 :: rest)) (monthsOf d0 rest))
        s (credit_history_score (yearsOf d0 rest)) (credit_mix_score (numTypesOf (d0 :: rest)))
        (new_credit_score (recentInquiriesOf d0 rest)) / 100 * 600 := by
    have := hraw.1
    linarith
  refine ⟨?_, ?_, ?_⟩
  · rw [finalScore, pyInt, if_pos h0]
  · rw [finalScore, pyInt, if_pos h0]
    refine Int.le_floor.mpr ?_
    push_cast
    have := hraw.1
    linarith
  · rw [finalScore, pyInt, if_pos h0]
    have hfl := Int.floor_le ((300 : ℚ) +
      rawScore (payment_history_score (poolDaysOf (d0 :: rest)) (monthsOf d0 rest))
        s (credit_history_score (yearsOf d0 rest)) (credit_mix_score (numTypesOf (d0 :: rest)))
        (new_credit_score (recentInquiriesOf d0 rest)) / 100 * 600)
    have h900 : ((⌊(300 : ℚ) +
        rawScore (payment_history_score (poolDaysOf (d0 :: rest)) (monthsOf d0 rest))
          s (credit_history_score (yearsOf d0 rest)) (credit_mix_score (numTypesOf (d0 :: rest)))
          (new_credit_score (recentInquiriesOf d0 rest)) / 100 * 600⌋ : ℤ) : ℚ) ≤ 900 := by
      have := hraw.2
      linarith
    exact_mod_cast h900

/-- Witness for the amended C2 at the concrete input `txnsPermA`. -/
theorem C2_score_formula_and_range_witness :
    reportPermA.cibil_score =
      ⌊(300 : ℚ) + rawScore reportPermA.payment_history_score
          reportPermA.credit_utilization_score reportPermA.credit_history_length_score
          reportPermA.credit_mix_score reportPermA.new_credit_score / 100 * 600⌋ ∧
    300 ≤ reportPermA.cibil_score ∧ reportPermA.cibil_score ≤ 900 :=
  C2_score_formula_and_range txnsPermA reportPermA evalPermA

/-- C4: the reported Payment History score of every produced report equals
the specification formula (consistency base of pool-size per span-month,
minus `min(20, 5 * gaps)`, floored at 50; 50 for an empty pool). -/
theorem C4_payment_history_spec :
    ∀ (transactions : List Txn) (r : Report),
      calculate_cibil_score transactions = .ok r →
      r.payment_history_score =
        specPaymentHistory (poolDaysOf (normalize transactions))
          (spanMonthsOfTxns transactions) := by
  intro txns r h
  obtain ⟨d0, rest, cu, hn, hcu, hr⟩ := calc_ok h
  subst hr
  rw [hn]
  simp only [spanMonthsOfTxns, hn]
  dsimp only [assembleReport]
  exact payment_history_eq_spec _ _ (monthsOf_ge_one d0 rest)

/-- Witness for C4 at the concrete input `txnsPermA`. -/
theorem C4_payment_history_spec_witness :
    reportPermA.payment_history_score =
      specPaymentHistory (poolDaysOf (normalize txnsPermA)) (spanMonthsOfTxns txnsPermA) :=
  C4_payment_history_spec txnsPermA reportPermA evalPermA

/-- C7 as stated is false: this transaction lacks only the `amount` field
and its date parses, yet `calculate_cibil_score` fails (with the KeyError
raised while summing credit-card amounts) instead of tolerating it. -/
theorem C7_missing_amount_counterexample :
    (∀ t ∈ txnsNoAmt, (parse_transaction_date (t.date.getD "")).isSome = true) ∧
    calculate_cibil_score txnsNoAmt = .error .keyErrorAmount :=
  ⟨by decide, evalNoAmt⟩

/-- C7 amended: a missing `date` or `description` is always tolerated
(drop, respectively default), and a missing `amount` is tolerated on every
record that is dropped or not categorized as a credit card: if some date
parses, every kept credit-card record carries an amount, and the credit-card
bucket is empty or its absolute amounts have non-zero sum, then the engine
returns a report. -/
theorem C7_tolerated_fields_amended :
    ∀ (transactions : List Txn) (amounts : List ℚ),
      (∃ t ∈ transactions, (parse_transaction_date (t.date.getD "")).isSome) →
      allAmounts (bucketOf "credit_card" (normalize transactions)) = some amounts →
      ((amounts.map fun a => |a|).sum ≠ 0 ∨
        bucketOf "credit_card" (normalize transactions) = []) →
      ∃ r, calculate_cibil_score transactions = .ok r := by
  intro txns amts hex hamts hnz
  obtain ⟨t, ht, hp⟩ := hex
  have hnn : normalize txns ≠ [] := by
    intro h0
    have hf := List.filterMap_eq_nil_iff.mp h0 t ht
    simp only [Option.map_eq_none'] at hf
    rw [hf] at hp
    simp at hp
  rcases txns with _ | ⟨t0, ts⟩
  · exact absurd rfl hnn
  · rcases hn : normalize (t0 :: ts) with _ | ⟨d0, rest⟩
    · exact absurd hn hnn
    · rw [hn] at hamts hnz
      simp only [calculate_cibil_score, List.isEmpty_cons, Bool.false_eq_true, if_false, hn]
      rcases hcc : bucketOf "credit_card" (d0 :: rest) with _ | ⟨c, cs⟩
      · exact ⟨assembleReport d0 rest (70.0, 0, "No Credit Card Usage"), rfl⟩
      · rw [hcc] at hamts hnz
        rcases hnz with hnz | hnil
        · have hl : ((c :: cs).length : ℚ) ≠ 0 := Nat.cast_ne_zero.mpr (by simp)
          have hlim : ¬ estimatedMonthlyBill amts (c :: cs).length * 2.5 = 0 := by
            rw [estimatedMonthlyBill]
            exact mul_ne_zero (mul_ne_zero (div_ne_zero hnz hl) (by norm_num)) (by norm_num)
          refine ⟨assembleReport d0 rest
            (curScorePiece (min 1.0 (estimatedMonthlyBill amts (c :: cs).length /
                (estimatedMonthlyBill amts (c :: cs).length * 2.5))),
             pyInt (min 1.0 (estimatedMonthlyBill amts (c :: cs).length /
                (estimatedMonthlyBill amts (c :: cs).length * 2.5)) * 100),
             curStatusPiece (min 1.0 (estimatedMonthlyBill amts (c :: cs).length /
                (estimatedMonthlyBill amts (c :: cs).length * 2.5)))), ?_⟩
          simp only [creditUtilization, hamts, if_neg hlim]
          rfl
        · exact absurd hnil (by simp)

/-- Witness for the amended C7: the first record lacks `description` and
`amount` but is kept (category `other`), the second lacks `date` and is
dropped; a report is produced. -/
theorem C7_tolerated_fields_amended_witness :
    (calculate_cibil_score txnsSparse).isOk = true := by
  obtain ⟨r, hr⟩ := C7_tolerated_fields_amended txnsSparse []
    ⟨⟨some "2024-01-01", none, none⟩, by decide, by decide⟩ (by decide) (Or.inr (by decide))
  rw [hr]
  rfl

/-- C10: in every produced report the utilization score is 75 with reported
percentage 40 whenever the credit-card bucket is non-empty (the computed
ratio is always `bill / (bill * 2.5) = 0.4`), and the utilization score only
ever takes the two values 70 (no cards) and 75 (cards). -/
theorem C10_utilization_constant :
    ∀ (transactions : List Txn) (r : Report),
      calculate_cibil_score transactions = .ok r →
      (bucketOf "credit_card" (normalize transactions) ≠ [] →
        r.credit_utilization_score = 75 ∧ r.utilization_percentage = 40) ∧
      (r.credit_utilization_score = 70 ∨ r.credit_utilization_score = 75) := by
  intro txns r h
  obtain ⟨d0, rest, cu, hn, hcu, hr⟩ := calc_ok h
  obtain ⟨s, p, st⟩ := cu
  subst hr
  rw [hn]
  dsimp only [assembleReport]
  rcases creditUtilization_ok_cases hcu with ⟨hnil, hs, hp⟩ | ⟨hne, hs, hp⟩
  · exact ⟨fun hcc => absurd hnil hcc, Or.inl hs⟩
  · exact ⟨fun _ => ⟨hs, hp⟩, Or.inr hs⟩

/-- Witness for C10 at the concrete input `txnsPermA` (non-empty card
bucket). -/
theorem C10_utilization_constant_witness :
    reportPermA.credit_utilization_score = 75 ∧ reportPermA.utilization_percentage = 40 :=
  (C10_utilization_constant txnsPermA reportPermA evalPermA).1 (by decide)

end Cibil

